import Mathlib

/-!
Shallow embedding of `setup.py` of the EarthSim repository: the
three-tier version resolver (`embed_version`, `get_setup_version`),
the static dependency manifest (`install_requires`, `extras_require`)
and the packaging-metadata record (`setup_args`).

Effectful Python operations (HTTP fetch, ZIP decoding, file writes,
dynamic imports) are modelled by an explicit environment of
`Except`-valued oracles, and the observable side effects (files
written, URLs requested, lines printed to stdout) by an explicit
world state threaded through the functions.  A Python exception is an
`Except.error`; a bare `except:` clause is a `match` on that value.
-/

namespace EarthSimSetup

/-- Python exceptions that the modelled code can raise or catch. -/
inductive Err where
  | urlError      -- urlopen failure (network unreachable, HTTP error)
  | zipError      -- zipfile.ZipFile failure (corrupt archive)
  | keyError      -- missing ZIP member / missing dict key
  | writeError    -- open-for-write / f.write failure
  | importError   -- importlib.import_module failure
  | fileNotFound  -- open-for-read failure
  | jsonError     -- json.load failure on non-JSON content
  | otherError    -- any other exception (e.g. raised by a helper module)
  deriving Repr, DecidableEq

/-- Content of a file on disk: either raw bytes, or bytes that parse as a
JSON object whose values are strings (the only shape `.version` needs). -/
inductive FileData where
  | raw (bytes : String)
  | json (fields : List (String × String))
  deriving Repr, DecidableEq

/-- File system: association of paths to file contents; the head of the
list is the most recent write to a path. -/
def FS := List (String × FileData)

/-- Read a file: `none` models `FileNotFoundError` on `open`. -/
def fsRead (fs : FS) (path : String) : Option FileData :=
  List.lookup path fs

/-- Write (or overwrite) a file at a path. -/
def fsWrite (fs : FS) (path : String) (d : FileData) : FS :=
  (path, d) :: fs

/-- A loaded Python module exposing `Version.setup_version`; the call may
itself raise, hence the `Except` result. -/
structure Module where
  setup_version : String → String → String → Except Err String

/-- ZIP archive contents: member names mapped to member bytes. -/
def Zip := List (String × String)

/-- Environment of effectful operations consumed by `setup.py`. -/
structure Env where
  /-- `os.path.split(__file__)[0]`: directory containing `setup.py`. -/
  basepath : String
  /-- `from param import version`: `some` a module on success, `none`
  when the import raises (caught by the bare `except:`). -/
  paramImport : Option Module
  /-- `urlopen(url)` followed by `response.read()`: the raw bytes of the
  HTTP response for a given URL, or a network failure. -/
  urlopen : String → Except Err String
  /-- `zipfile.ZipFile(io.BytesIO(bytes))`: decode bytes as an archive. -/
  zipOf : String → Except Err Zip
  /-- Whether the open-for-write of the helper file fails (disk error). -/
  writeFails : Bool
  /-- `importlib.import_module(name)`. -/
  importModule : String → Except Err Module

/-- Observable world state: the file system, the URLs requested so far
(in order), and the lines printed to standard output (in order). -/
structure World where
  fs : FS
  requests : List String
  printed : List String

/-- `os.path.join` for the paths this script builds. -/
def pathJoin (a b : String) : String := a ++ "/" ++ b

/-- The archive URL template `https://github.com/ioam/autover/archive/REF.zip` with `REF` filled in. -/
def archiveUrl (ref : String) : String :=
  "https://github.com/ioam/autover/archive/" ++ ref ++ ".zip"

/-- The expression `ref[1:] if ref.startswith(chr(118)) else ref` of the
source, where chr(118) is the letter v, translated onto the character
list underlying the string (so that it computes by structural
recursion). -/
def stripV (ref : String) : String :=
  if List.isPrefixOf "v".data ref.data then String.mk (ref.data.drop 1) else ref

/-- The ZIP member path `autover-REF/autover/version.py` with `REF` filled in. -/
def archiveMember (ref : String) : String :=
  "autover-" ++ ref ++ "/autover/version.py"

/-- `zf.read(member)`: raises `KeyError` when the member is absent. -/
def zipRead (zf : Zip) (member : String) : Except Err String :=
  match List.lookup member zf with
  | some bytes => Except.ok bytes
  | none => Except.error Err.keyError

/-- Body of `embed_version` (the suite inside its `try:`): fetch the
archive, decode it, read the bytes of the helper module, write them to
`<basepath>/version.py`, and import the module.  Returns the raised
exception or the module, together with the world as left behind (a
failure after the write does not undo the write). -/
def embedVersionBody (env : Env) (w : World) (basepath ref : String) :
    Except Err Module × World :=
  let w := { w with requests := w.requests ++ [archiveUrl ref] }
  match env.urlopen (archiveUrl ref) with
  | Except.error e => (Except.error e, w)
  | Except.ok bytes =>
    match env.zipOf bytes with
    | Except.error e => (Except.error e, w)
    | Except.ok zf =>
      let ref := stripV ref
      match zipRead zf (archiveMember ref) with
      | Except.error e => (Except.error e, w)
      | Except.ok content =>
        if env.writeFails then (Except.error Err.writeError, w)
        else
          let w := { w with
            fs := fsWrite w.fs (pathJoin basepath "version.py") (FileData.raw content) }
          match env.importModule "version" with
          | Except.error e => (Except.error e, w)
          | Except.ok m => (Except.ok m, w)

/-- The function `embed_version(basepath, ref)` with default ref v0.2.2:
the body above wrapped in `try: ... except: return None`. -/
def embed_version (env : Env) (w : World) (basepath : String)
    (ref : String := "v0.2.2") : Option Module × World :=
  match embedVersionBody env w basepath ref with
  | (Except.ok m, w) => (some m, w)
  | (Except.error _, w) => (none, w)

/-- The `try: from param import version / except: version = embed_version(basepath)`
block of `get_setup_version`. -/
def resolveHelper (env : Env) (w : World) : Option Module × World :=
  match env.paramImport with
  | some m => (some m, w)
  | none => embed_version env w env.basepath

/-- The warning printed when both automatic tiers are unavailable. -/
def warningMsg : String :=
  "WARNING: param>=1.6.0 unavailable. If you are installing a package, this warning can safely be ignored. If you are creating a package or otherwise operating in a git repository, you should install param>=1.6.0."

/-- Evaluation of `json.load(open(path)).get of version_string` (a raise
on a missing key) on the contents found at the persisted version file
path. -/
def jsonVersionString : Option FileData → Except Err String
  | none => Except.error Err.fileNotFound
  | some (FileData.raw _) => Except.error Err.jsonError
  | some (FileData.json fields) =>
    match List.lookup "version_string" fields with
    | some v => Except.ok v
    | none => Except.error Err.keyError

/-- The path `os.path.join(basepath, reponame, dot-version)`. -/
def versionFilePath (basepath reponame : String) : String :=
  pathJoin (pathJoin basepath reponame) ".version"

/-- Outcome of `get_setup_version`: its return value or escaping
exception, plus the world it leaves behind. -/
structure RunOut where
  result : Except Err String
  world : World

/-- `get_setup_version(reponame)`: tier 1 (installed `param.version`),
tier 2 (`embed_version`), tier 3 (persisted `.version` JSON file, with a
warning printed first). -/
def get_setup_version (env : Env) (w : World) (reponame : String) : RunOut :=
  let basepath := env.basepath
  let version_file_path := versionFilePath basepath reponame
  match resolveHelper env w with
  | (some version, w) =>
    { result := version.setup_version basepath reponame "$Format:%h$"
      world := w }
  | (none, w) =>
    let w := { w with printed := w.printed ++ [warningMsg] }
    { result := jsonVersionString (fsRead w.fs version_file_path)
      world := w }

/-- The `install_requires` list, literal for literal; the first entry
keeps the two adjacent string literals of the source. -/
def install_requires : List String := [
  "param >= 1.6" ++
  "fiona",
  "rasterio",
  "gdal",
  "json-rpc",
  "ulmo >=0.8.3.2",
  "pyyaml",
  "matplotlib",
  "click",
  "werkzeug",
  "peewee",
  "geopandas",
  "psutil",
  "pint",
  "pony",
  "scikit-image",
  "go-spatial",
  "jupyter",
  "descartes",
  "gsshapy",
  "cartopy",
  "bokeh",
  "xarray",
  "gssha",
  "datashader",
  "filigree",
  "param",
  "parambokeh",
  "paramnb",
  "numpy",
  "stevedore"
]

/-- The `extras_require` dict: named optional dependency groups. -/
def extras_require : List (String × List String) := [
  ("tests", ["nbsmoke"]),
  ("docs", ["nbsite"])
]

/-- The packaging-metadata record built by `setup_args.update(dict(...))`. -/
structure SetupArgs where
  name : String
  version : String
  install_requires : List String
  extras_require : List (String × List String)
  tests_require : List String
  python_requires : String
  deriving Repr

/-- The lookup `extras_require[tests]` (the key is statically present). -/
def extrasTests : List String :=
  (List.lookup "tests" extras_require).getD []

/-- Module-level execution of `setup.py`: evaluate
`get_setup_version("EarthSim")` and, if it returns, build `setup_args`;
if it raises, the whole script (the build) fails with that error. -/
def runSetup (env : Env) (w : World) : Except Err SetupArgs :=
  match (get_setup_version env w "EarthSim").result with
  | Except.error e => Except.error e
  | Except.ok v => Except.ok {
      name := "earthsim"
      version := v
      install_requires := install_requires
      extras_require := extras_require
      tests_require := extrasTests
      python_requires := ">=3.5" }

/-- Whether the contents found at the persisted version file path are
valid JSON carrying a `version_string` field. -/
def validVersionFile : Option FileData → Bool
  | some (FileData.json fields) => (List.lookup "version_string" fields).isSome
  | _ => false

/-! Concrete environments used as witnesses and counterexamples. -/

/-- A helper module whose `setup_version` returns normally. -/
def okModule : Module := ⟨fun _ _ _ => Except.ok "1.0.0"⟩

/-- A helper module whose `setup_version` raises. -/
def badModule : Module := ⟨fun _ _ _ => Except.error Err.otherError⟩

/-- A remote archive containing exactly the expected helper file. -/
def goodZip : Zip := [("autover-0.2.2/autover/version.py", "PYBYTES")]

/-- Environment in which tier 1 is unavailable and every tier-2 step
succeeds. -/
def envOk : Env := {
  basepath := "/repo"
  paramImport := none
  urlopen := fun u =>
    if u = "https://github.com/ioam/autover/archive/v0.2.2.zip" then
      Except.ok "ZIPBYTES"
    else Except.error Err.urlError
  zipOf := fun b =>
    if b = "ZIPBYTES" then Except.ok goodZip else Except.error Err.zipError
  writeFails := false
  importModule := fun n =>
    if n = "version" then Except.ok okModule else Except.error Err.importError }

/-- Environment in which tier 1 is unavailable and the network is
unreachable, so tier 2 fails at its first step. -/
def envFail : Env := {
  basepath := "/repo"
  paramImport := none
  urlopen := fun _ => Except.error Err.urlError
  zipOf := fun _ => Except.error Err.zipError
  writeFails := false
  importModule := fun _ => Except.error Err.importError }

/-- Environment in which tier 1 succeeds with a helper module whose
`setup_version` raises. -/
def envTier1Bad : Env := { envFail with paramImport := some badModule }

/-- Environment in which tier 1 succeeds with a well-behaved helper. -/
def envTier1Ok : Env := { envFail with paramImport := some okModule }

/-- Environment in which tier 2 fetches, decodes and writes the helper
file but the dynamic import of the downloaded module fails. -/
def envImportFails : Env :=
  { envOk with importModule := fun _ => Except.error Err.importError }

/-- An empty world: no files, no requests, nothing printed. -/
def w0 : World := { fs := [], requests := [], printed := [] }

/-- A world whose file system holds a valid persisted version file for
the EarthSim package with `version_string` equal to `1.2.3`. -/
def wVer : World := {
  fs := [("/repo/EarthSim/.version", FileData.json [("version_string", "1.2.3")])]
  requests := []
  printed := [] }

/-- The world left behind by a fully successful `embed_version` run from
`envOk` and `w0`. -/
def wOutOk : World := {
  fs := [("/repo/version.py", FileData.raw "PYBYTES")]
  requests := ["https://github.com/ioam/autover/archive/v0.2.2.zip"]
  printed := [] }

/-- The metadata record produced by a build that resolved the persisted
version `1.2.3`. -/
def argsOk : SetupArgs := {
  name := "earthsim"
  version := "1.2.3"
  install_requires := install_requires
  extras_require := extras_require
  tests_require := extrasTests
  python_requires := ">=3.5" }

/-! Helper lemmas shared by the claim theorems. -/

/-- The body of `embed_version` never prints anything. -/
theorem embedVersionBody_printed (env : Env) (w : World) (bp ref : String) :
    (embedVersionBody env w bp ref).2.printed = w.printed := by
  unfold embedVersionBody
  dsimp only
  repeat' split
  all_goals dsimp only

/-! Claim theorems. -/

/-- C1: when the installed version helper is unavailable (the import of
`param.version` fails) and the remote fetch fails (`embed_version`
returns `None`), and the persisted file at
`<basepath>/<reponame>/.version` is valid JSON whose `version_string`
field equals `1.2.3`, `get_setup_version reponame` returns exactly the
string `1.2.3`, the value of that field. -/
theorem getSetupVersion_persisted_fallback (env : Env) (w : World)
    (reponame : String) (fields : List (String × String))
    (h1 : env.paramImport = none)
    (h2 : (embed_version env w env.basepath).1 = none)
    (h3 : fsRead (embed_version env w env.basepath).2.fs
            (versionFilePath env.basepath reponame)
          = some (FileData.json fields))
    (h4 : List.lookup "version_string" fields = some "1.2.3") :
    (get_setup_version env w reponame).result = Except.ok "1.2.3" := by
  unfold get_setup_version resolveHelper
  rw [h1]
  rcases hE : embed_version env w env.basepath with ⟨v, w2⟩
  rw [hE] at h2 h3
  simp only at h2
  subst h2
  dsimp only
  rw [h3]
  simp [jsonVersionString, h4]

/-- C1 witness: a concrete unreachable-network environment with a valid
persisted version file, on which the theorem applies. -/
theorem getSetupVersion_persisted_fallback_witness :
    (get_setup_version envFail wVer "EarthSim").result = Except.ok "1.2.3" :=
  getSetupVersion_persisted_fallback envFail wVer "EarthSim"
    [("version_string", "1.2.3")] rfl rfl rfl rfl

/-- C2: any failure of the network request, ZIP decoding, member read,
file write or dynamic import inside `embed_version` is caught:
`embed_version` returns `None` instead of raising, and
`get_setup_version` then falls through to the persisted-file tier. -/
theorem embedVersion_failure_returns_none_falls_through (env : Env)
    (w : World) (reponame : String) (e : Err)
    (h1 : env.paramImport = none)
    (h2 : (embedVersionBody env w env.basepath "v0.2.2").1 = Except.error e) :
    (embed_version env w env.basepath).1 = none ∧
    (get_setup_version env w reponame).result =
      jsonVersionString (fsRead (embed_version env w env.basepath).2.fs
        (versionFilePath env.basepath reponame)) := by
  have hnone : (embed_version env w env.basepath).1 = none := by
    unfold embed_version
    rcases hb : embedVersionBody env w env.basepath "v0.2.2" with ⟨r, w2⟩
    rw [hb] at h2
    simp only at h2
    subst h2
    rfl
  refine ⟨hnone, ?_⟩
  unfold get_setup_version resolveHelper
  rw [h1]
  rcases hE : embed_version env w env.basepath with ⟨v, w2⟩
  rw [hE] at hnone
  simp only at hnone
  subst hnone
  rfl

/-- C2 witness: the unreachable-network environment raises inside the
remote fetch, and resolution proceeds from the persisted file. -/
theorem embedVersion_failure_returns_none_falls_through_witness :
    (embed_version envFail wVer envFail.basepath).1 = none ∧
    (get_setup_version envFail wVer "EarthSim").result =
      jsonVersionString (fsRead
        (embed_version envFail wVer envFail.basepath).2.fs
        (versionFilePath envFail.basepath "EarthSim")) :=
  embedVersion_failure_returns_none_falls_through envFail wVer "EarthSim"
    Err.urlError rfl rfl

/-- C3: when tier 1 and tier 2 are both unavailable (the resolved helper
is `None`) and the persisted version file is missing or is not valid
JSON with a `version_string` field, `get_setup_version` raises an error
that propagates to its caller rather than returning any placeholder. -/
theorem getSetupVersion_fatal_when_version_file_invalid (env : Env)
    (w : World) (reponame : String)
    (h1 : (resolveHelper env w).1 = none)
    (h2 : validVersionFile (fsRead (resolveHelper env w).2.fs
            (versionFilePath env.basepath reponame)) = false) :
    ∃ e, (get_setup_version env w reponame).result = Except.error e := by
  unfold get_setup_version
  rcases hE : resolveHelper env w with ⟨v, w2⟩
  rw [hE] at h1 h2
  simp only at h1
  subst h1
  dsimp only
  rcases hf : fsRead w2.fs (versionFilePath env.basepath reponame) with _ | fd
  · exact ⟨Err.fileNotFound, by simp [jsonVersionString, hf]⟩
  · rw [hf] at h2
    cases fd with
    | raw b => exact ⟨Err.jsonError, by simp [jsonVersionString, hf]⟩
    | json fields =>
      rcases hl : List.lookup "version_string" fields with _ | v
      · exact ⟨Err.keyError, by simp [jsonVersionString, hf, hl]⟩
      · simp [validVersionFile, hl] at h2

/-- C3 witness: unreachable network and an empty file system, on which
resolution ends in an error. -/
theorem getSetupVersion_fatal_when_version_file_invalid_witness :
    ∃ e, (get_setup_version envFail w0 "EarthSim").result = Except.error e :=
  getSetupVersion_fatal_when_version_file_invalid envFail w0 "EarthSim"
    rfl rfl

/-- C4 counterexample: tier 1 yields a usable helper module
(`badModule`) whose `setup_version` raises, and that exception escapes
`get_setup_version` even though a valid persisted version file exists,
refuting the claim that only the fatal persisted-file-tier error can
escape. -/
theorem getSetupVersion_helper_exception_escapes_cex :
    (resolveHelper envTier1Bad wVer).1 = some badModule ∧
    (get_setup_version envTier1Bad wVer "EarthSim").result =
      Except.error Err.otherError :=
  ⟨rfl, rfl⟩

/-- C4 amended: every error escaping `get_setup_version` is either the
fatal persisted-file-tier failure (when no helper was obtained) or an
exception raised by the obtained helper module itself when its
`setup_version` is called; failures in acquiring a helper never
escape. -/
theorem getSetupVersion_error_sources (env : Env) (w : World)
    (reponame : String) (e : Err)
    (h : (get_setup_version env w reponame).result = Except.error e) :
    ((resolveHelper env w).1 = none ∧
      jsonVersionString (fsRead (resolveHelper env w).2.fs
        (versionFilePath env.basepath reponame)) = Except.error e) ∨
    (∃ m, (resolveHelper env w).1 = some m ∧
      m.setup_version env.basepath reponame "$Format:%h$" =
        Except.error e) := by
  unfold get_setup_version at h
  rcases hE : resolveHelper env w with ⟨v, w2⟩
  rw [hE] at h
  cases v with
  | some m => exact Or.inr ⟨m, rfl, by simpa using h⟩
  | none => exact Or.inl ⟨rfl, by simpa using h⟩

/-- C4 amended witness: at the concrete raising-helper environment the
escaping error is traced to the helper module. -/
theorem getSetupVersion_error_sources_witness :
    ((resolveHelper envTier1Bad wVer).1 = none ∧
      jsonVersionString (fsRead (resolveHelper envTier1Bad wVer).2.fs
        (versionFilePath envTier1Bad.basepath "EarthSim")) =
          Except.error Err.otherError) ∨
    (∃ m, (resolveHelper envTier1Bad wVer).1 = some m ∧
      m.setup_version envTier1Bad.basepath "EarthSim" "$Format:%h$" =
        Except.error Err.otherError) :=
  getSetupVersion_error_sources envTier1Bad wVer "EarthSim" Err.otherError
    rfl

/-- C5: `get_setup_version` appends exactly one warning line to standard
output when and only when both tier 1 and tier 2 fail to produce a
helper module, and prints nothing when either succeeds. -/
theorem getSetupVersion_warning_iff_no_helper (env : Env) (w : World)
    (reponame : String) :
    (get_setup_version env w reponame).world.printed =
      w.printed ++
        (if ((resolveHelper env w).1).isNone then [warningMsg] else []) := by
  have hp : (resolveHelper env w).2.printed = w.printed := by
    unfold resolveHelper embed_version
    cases env.paramImport with
    | some m => rfl
    | none =>
      have h := embedVersionBody_printed env w env.basepath "v0.2.2"
      rcases hb : embedVersionBody env w env.basepath "v0.2.2" with ⟨r, w2⟩
      rw [hb] at h
      cases r <;> simpa using h
  unfold get_setup_version
  rcases hE : resolveHelper env w with ⟨v, w2⟩
  rw [hE] at hp
  simp only at hp
  cases v with
  | some m => simp [hp]
  | none => simp [hp]

/-- C6: a successful `embed_version` run with the default ref performs
exactly one HTTP GET, to the pinned URL
`https://github.com/ioam/autover/archive/v0.2.2.zip`, reads exactly the
member `autover-0.2.2/autover/version.py` of the fetched archive
(leading letter v stripped from the ref), persists its bytes to
`<basepath>/version.py`, and returns the dynamically imported module
named `version`. -/
theorem embedVersion_success_effects (env : Env) (w : World) (bp : String)
    (m : Module) (wOut : World)
    (h : embed_version env w bp = (some m, wOut)) :
    wOut.requests = w.requests ++
      ["https://github.com/ioam/autover/archive/v0.2.2.zip"] ∧
    ∃ bytes zf content,
      env.urlopen "https://github.com/ioam/autover/archive/v0.2.2.zip" =
        Except.ok bytes ∧
      env.zipOf bytes = Except.ok zf ∧
      List.lookup "autover-0.2.2/autover/version.py" zf = some content ∧
      wOut.fs = fsWrite w.fs (pathJoin bp "version.py")
        (FileData.raw content) ∧
      env.importModule "version" = Except.ok m := by
  have hurl : archiveUrl "v0.2.2" =
      "https://github.com/ioam/autover/archive/v0.2.2.zip" := rfl
  have hmem : archiveMember (stripV "v0.2.2") =
      "autover-0.2.2/autover/version.py" := rfl
  unfold embed_version embedVersionBody at h
  try dsimp only at h
  rcases hu : env.urlopen (archiveUrl "v0.2.2") with e | bytes
  · rw [hu] at h; simp at h
  · rw [hu] at h
    try dsimp only at h
    rcases hz : env.zipOf bytes with e | zf
    · rw [hz] at h; simp at h
    · rw [hz] at h
      try dsimp only at h
      rcases hr : zipRead zf (archiveMember (stripV "v0.2.2")) with e | content
      · rw [hr] at h; simp at h
      · rw [hr] at h
        try dsimp only at h
        rcases hwf : env.writeFails with _ | _
        · rw [hwf] at h
          try dsimp only at h
          rcases hi : env.importModule "version" with e | m2
          · rw [hi] at h; simp at h
          · rw [hi] at h
            try dsimp only at h
            have hm : m2 = m := by
              have := congrArg Prod.fst h
              simpa using this
            have hw : wOut =
                { fs := fsWrite w.fs (pathJoin bp "version.py")
                    (FileData.raw content)
                  requests := w.requests ++ [archiveUrl "v0.2.2"]
                  printed := w.printed } := by
              have := congrArg Prod.snd h
              simpa using this.symm
            subst hm
            have hlk : List.lookup "autover-0.2.2/autover/version.py" zf =
                some content := by
              have h2 := hr
              rw [hmem] at h2
              unfold zipRead at h2
              rcases hl : List.lookup "autover-0.2.2/autover/version.py" zf
                with _ | v
              · rw [hl] at h2; simp at h2
              · rw [hl] at h2
                simpa using h2
            refine ⟨?_, bytes, zf, content, ?_, ?_, hlk, ?_, ?_⟩
            · rw [hw, hurl]
            · rw [← hurl]; exact hu
            · exact hz
            · rw [hw]
            · rfl
        · rw [hwf] at h; simp at h

/-- C6 witness: the all-steps-succeed environment realises the described
effects concretely. -/
theorem embedVersion_success_effects_witness :
    wOutOk.requests = w0.requests ++
      ["https://github.com/ioam/autover/archive/v0.2.2.zip"] ∧
    ∃ bytes zf content,
      envOk.urlopen "https://github.com/ioam/autover/archive/v0.2.2.zip" =
        Except.ok bytes ∧
      envOk.zipOf bytes = Except.ok zf ∧
      List.lookup "autover-0.2.2/autover/version.py" zf = some content ∧
      wOutOk.fs = fsWrite w0.fs (pathJoin "/repo" "version.py")
        (FileData.raw content) ∧
      envOk.importModule "version" = Except.ok okModule :=
  embedVersion_success_effects envOk w0 "/repo" okModule wOutOk rfl

/-- C7: whenever the build succeeds, the packaging-metadata record
forwards the dependency manifest unchanged: the mandatory list is
exactly `install_requires`, the optional groups are exactly
`extras_require`, and the group names are exactly `tests` and `docs`,
none dropped or merged. -/
theorem runSetup_forwards_manifest (env : Env) (w : World)
    (args : SetupArgs) (h : runSetup env w = Except.ok args) :
    args.install_requires = install_requires ∧
    args.extras_require = extras_require ∧
    args.extras_require.map Prod.fst = ["tests", "docs"] ∧
    args.tests_require = extrasTests := by
  unfold runSetup at h
  rcases hr : (get_setup_version env w "EarthSim").result with e | v
  · rw [hr] at h; simp at h
  · rw [hr] at h
    try dsimp only at h
    injection h with h1
    subst h1
    exact ⟨rfl, rfl, rfl, rfl⟩

/-- C7 witness: a concrete successful build, whose metadata record
carries the manifest unchanged. -/
theorem runSetup_forwards_manifest_witness :
    argsOk.install_requires = install_requires ∧
    argsOk.extras_require = extras_require ∧
    argsOk.extras_require.map Prod.fst = ["tests", "docs"] ∧
    argsOk.tests_require = extrasTests :=
  runSetup_forwards_manifest envFail wVer argsOk rfl

/-- C8: whenever a helper module is obtained from tier 1 or tier 2,
`get_setup_version` returns the result of that module applied at
`setup_version(basepath, reponame, archive_commit)` with the
archive-substitution token as the commit argument. -/
theorem getSetupVersion_uses_helper_setup_version (env : Env) (w : World)
    (reponame : String) (m : Module)
    (h : (resolveHelper env w).1 = some m) :
    (get_setup_version env w reponame).result =
      m.setup_version env.basepath reponame "$Format:%h$" := by
  unfold get_setup_version
  rcases hE : resolveHelper env w with ⟨v, w2⟩
  rw [hE] at h
  simp only at h
  subst h
  rfl

/-- C8 witness: a concrete tier-1 environment whose helper result is
returned unchanged. -/
theorem getSetupVersion_uses_helper_setup_version_witness :
    (get_setup_version envTier1Ok w0 "EarthSim").result =
      okModule.setup_version envTier1Ok.basepath "EarthSim" "$Format:%h$" :=
  getSetupVersion_uses_helper_setup_version envTier1Ok w0 "EarthSim"
    okModule rfl

/-- C9: the first element of `install_requires` is the single
concatenated string `param >= 1.6fiona`, neither `param >= 1.6` nor
`fiona` occurs as its own entry, and the list has 30 entries, one fewer
than the 31 written-out literals. -/
theorem install_requires_concatenated_literal :
    install_requires.head? = some ("param >= 1.6" ++ "fiona") ∧
    ("param >= 1.6" ++ "fiona" : String) = "param >= 1.6fiona" ∧
    "param >= 1.6" ∉ install_requires ∧
    "fiona" ∉ install_requires ∧
    install_requires.length = 30 :=
  ⟨rfl, rfl, by decide, by decide, rfl⟩

/-- C10: `embed_version` is not atomic on failure: in an execution where
fetch, decode and write succeed but the dynamic import raises, it
returns `None` while the downloaded `version.py` remains on disk. -/
theorem embedVersion_not_atomic_on_import_failure :
    (embed_version envImportFails w0 "/repo").1 = none ∧
    fsRead (embed_version envImportFails w0 "/repo").2.fs
      (pathJoin "/repo" "version.py") = some (FileData.raw "PYBYTES") :=
  ⟨rfl, rfl⟩

end EarthSimSetup
